import Mathlib

/-!
Shallow embedding of the knowledge-retrieval engine of `fast_rag.py`
(class `FastMalariaRAG`): corpus loading and idempotent build
(`load_knowledge`), nearest-neighbor search with optional category filter
(`search`), context assembly (`get_context`), and statistics (`get_stats`).

The embedding model (SentenceTransformer) and the vector store (ChromaDB)
are external capabilities: they are modelled as parameters `embed`
(text to vector) and `dist` (distance between two vectors), and the
collection as a Lean list of documents.  All state the Python code keeps
in ChromaDB is passed explicitly.
-/

/-- A raw corpus entry of `malaria_knowledge.json`:
fields `title`, `content`, `source`, `category`. -/
structure KnowledgeEntry where
  title : String
  content : String
  source : String
  category : String
deriving DecidableEq, Repr

/-- The metadata dictionary stored per document by `load_knowledge`
(lines 65-71 of `fast_rag.py`). -/
structure Metadata where
  title : String
  source : String
  category : String
  text_length : Nat
  entry_id : Nat
deriving DecidableEq, Repr

/-- A document as stored in the ChromaDB collection: id, raw text,
embedding vector and metadata. -/
structure Document where
  id : String
  text : String
  embedding : List Rat
  metadata : Metadata
deriving DecidableEq, Repr

/-- The text composed for embedding:
`f"Title: {item['title']}\n\nContent: {item['content']}"` (line 62). -/
def composeText (item : KnowledgeEntry) : String :=
  "Title: " ++ item.title ++ "\n\nContent: " ++ item.content

/-- Build the document stored for corpus entry `item` at 0-based
position `i` (the body of the enumeration loop, lines 60-72). -/
def mkDocument (embed : String → List Rat) (i : Nat) (item : KnowledgeEntry) : Document :=
  let text := composeText item
  { id := "malaria_doc_" ++ toString i
    text := text
    embedding := embed text
    metadata :=
      { title := item.title
        source := item.source
        category := item.category
        text_length := text.length
        entry_id := i } }

/-- The enumeration loop of `load_knowledge`, carrying the running
0-based index `i`. -/
def buildDocsFrom (embed : String → List Rat) : Nat → List KnowledgeEntry → List Document
  | _, [] => []
  | i, item :: rest => mkDocument embed i item :: buildDocsFrom embed (i + 1) rest

/-- All documents built from a corpus, enumerated from index 0. -/
def buildDocuments (embed : String → List Rat) (entries : List KnowledgeEntry) : List Document :=
  buildDocsFrom embed 0 entries

/-- State of the file `malaria_knowledge.json` on disk: absent,
present but not valid JSON, or parsed to a list of entries. -/
inductive CorpusFile where
  | absent
  | unparsable
  | parsed (entries : List KnowledgeEntry)
deriving DecidableEq, Repr

/-- How one call to `load_knowledge` ends. `missingFile`,
`alreadyLoaded` and `emptyKnowledge` are normal returns (the Python code
prints a message and falls off the function); `parseError` stands for
the `json.load` exception propagating out of the call; `built n` is the
successful build of `n` documents. -/
inductive BuildOutcome where
  | missingFile
  | alreadyLoaded (n : Nat)
  | parseError
  | emptyKnowledge
  | built (n : Nat)
deriving DecidableEq, Repr

/-- Whether a `load_knowledge` outcome reaches the caller as a raised
error (only the `json.load` parse failure is uncaught in the code). -/
def raisesToCaller : BuildOutcome → Bool
  | .parseError => true
  | _ => false

/-- Result of one `load_knowledge` call: outcome, collection contents
afterwards, and how many texts were sent to the embedder
(`embedder.encode(documents)` embeds every document text; 0 on every
early return). -/
structure BuildStep where
  outcome : BuildOutcome
  collection : List Document
  embedCalls : Nat
deriving DecidableEq, Repr

/-- `FastMalariaRAG.load_knowledge` (lines 30-89).  Checks file
existence first, then the persisted count, then parses; an empty parsed
list is logged and the call returns; otherwise every entry is embedded
and appended to the collection via `collection.add`. -/
def load_knowledge (embed : String → List Rat) (file : CorpusFile)
    (col : List Document) : BuildStep :=
  match file with
  | .absent => ⟨.missingFile, col, 0⟩
  | .unparsable =>
      if 0 < col.length then ⟨.alreadyLoaded col.length, col, 0⟩
      else ⟨.parseError, col, 0⟩
  | .parsed entries =>
      if 0 < col.length then ⟨.alreadyLoaded col.length, col, 0⟩
      else if entries.isEmpty then ⟨.emptyKnowledge, col, 0⟩
      else
        let docs := buildDocuments embed entries
        ⟨.built docs.length, col ++ docs, entries.length⟩

/-- A search hit as formatted by `search` (lines 118-125). -/
structure SearchResult where
  content : String
  metadata : Metadata
  relevance_score : Rat
  distance : Rat
deriving DecidableEq, Repr

/-- Insert a scored document into a list sorted ascending by distance
(model of the ranked order ChromaDB returns). -/
def insertByDist (x : Document × Rat) : List (Document × Rat) → List (Document × Rat)
  | [] => [x]
  | y :: ys => if x.2 < y.2 then x :: y :: ys else y :: insertByDist x ys

/-- Sort scored documents ascending by distance. -/
def sortByDist : List (Document × Rat) → List (Document × Rat)
  | [] => []
  | x :: xs => insertByDist x (sortByDist xs)

/-- `FastMalariaRAG.search` (lines 91-128).  Empty collection short
circuits to `[]`; otherwise the query is embedded, `n_results` is
clamped to the collection count, a `where`-filter on `category` is
added only when `category_filter` is truthy in Python (not `None` and
not the empty string), and each ranked hit is formatted with
`relevance_score = 1 - distance`. -/
def search (embed : String → List Rat) (dist : List Rat → List Rat → Rat)
    (col : List Document) (query : String) (n_results : Nat)
    (category_filter : Option String) : List SearchResult :=
  if col.length = 0 then []
  else
    let query_embedding := embed query
    let k := min n_results col.length
    let candidates :=
      match category_filter with
      | none => col
      | some s => if s = "" then col else col.filter (fun d => d.metadata.category == s)
    let ranked := (sortByDist (candidates.map (fun d => (d, dist query_embedding d.embedding)))).take k
    ranked.map (fun p =>
      { content := p.1.text
        metadata := p.1.metadata
        relevance_score := 1 - p.2
        distance := p.2 })

/-- Left-pad a natural number below 1000 to three digits, for the
millesimal part of `{relevance:.3f}`. -/
def pad3 (n : Nat) : String :=
  if n < 10 then "00" ++ toString n
  else if n < 100 then "0" ++ toString n
  else toString n

/-- Render a rational to three decimal places, modelling the Python
format specifier `:.3f` (rounding to the nearest thousandth). -/
def formatRat3 (q : Rat) : String :=
  let m : Int := round (q * 1000)
  let sign := if m < 0 then "-" else ""
  let a := m.natAbs
  sign ++ toString (a / 1000) ++ "." ++ pad3 (a % 1000)

/-- The fixed truncation marker appended by `get_context` (line 151). -/
def truncationMarker : String := "...\n[Content truncated for brevity]"

/-- Content rendering inside `get_context` (lines 149-151): content
longer than 800 characters is cut to its first 800 characters with the
fixed marker appended, shorter content is rendered unmodified. -/
def renderContent (content : String) : String :=
  if 800 < content.length then String.mk (content.data.take 800) ++ truncationMarker
  else content

/-- The character the separator line repeats. -/
def hyphenChar : Char := Char.ofNat 45

/-- The fixed separator line `"-" * 80` of `get_context` (line 154). -/
def separatorLine : String := String.mk (List.replicate 80 hyphenChar)

/-- One rendered block of `get_context` for the `i`-th result
(1-indexed), lines 144-154. -/
def formatBlock (i : Nat) (r : SearchResult) : String :=
  toString i ++ ". " ++ r.metadata.title ++ "\n" ++
  "   Source: " ++ r.metadata.source ++ " | Category: " ++ r.metadata.category ++ "\n" ++
  "   Relevance: " ++ formatRat3 r.relevance_score ++ "\n\n" ++
  renderContent r.content ++ "\n\n" ++
  separatorLine ++ "\n\n"

/-- The `enumerate(results, 1)` loop of `get_context`. -/
def contextBlocks : Nat → List SearchResult → String
  | _, [] => ""
  | i, r :: rs => formatBlock i r ++ contextBlocks (i + 1) rs

/-- The fixed sentinel `get_context` returns when search finds
nothing (line 136). -/
def noKnowledgeSentinel : String := "No relevant malaria knowledge found."

/-- `FastMalariaRAG.get_context` (lines 130-156): searches (with no
category filter), returns the sentinel on an empty result, otherwise a
header followed by one formatted block per result. -/
def get_context (embed : String → List Rat) (dist : List Rat → List Rat → Rat)
    (col : List Document) (query : String) (n_results : Nat) : String :=
  let results := search embed dist col query n_results none
  if results.isEmpty then noKnowledgeSentinel
  else "🦟 RELEVANT MALARIA KNOWLEDGE:\n\n" ++ contextBlocks 1 results

/-- The record `get_stats` returns on a populated index
(lines 190-197). -/
structure StatsRecord where
  total_documents : Nat
  categories : List (String × Nat)
  sources : List (String × Nat)
  total_text_length : Nat
  avg_document_length : Rat
  vector_dimensions : Nat
deriving DecidableEq, Repr

/-- `get_stats` either reports an error dictionary (empty index) or a
statistics record. -/
inductive StatsOutcome where
  | error (msg : String)
  | record (r : StatsRecord)
deriving DecidableEq, Repr

/-- `d[k] = d.get(k, 0) + 1` on an insertion-ordered association
list, modelling the Python dict tallies of `get_stats`. -/
def bump (k : String) : List (String × Nat) → List (String × Nat)
  | [] => [(k, 1)]
  | (k', n) :: rest => if k = k' then (k', n + 1) :: rest else (k', n) :: bump k rest

/-- Tally the values of `f` over the stored metadata, in order. -/
def tally (f : Metadata → String) (ms : List Metadata) : List (String × Nat) :=
  ms.foldl (fun acc m => bump (f m) acc) []

/-- Sum of the counts of a tally. -/
def sumCounts (l : List (String × Nat)) : Nat :=
  (l.map (fun p => p.2)).sum

/-- `FastMalariaRAG.get_stats` (lines 170-197): an error dictionary on
an empty collection, otherwise per-category and per-source counts,
summed text length, the average document length, and the hardcoded
vector dimensionality 384. -/
def get_stats (col : List Document) : StatsOutcome :=
  if col.length = 0 then .error "No knowledge base loaded"
  else
    let metas := col.map (fun d => d.metadata)
    let total_length := (metas.map (fun m => m.text_length)).sum
    .record
      { total_documents := col.length
        categories := tally (fun m => m.category) metas
        sources := tally (fun m => m.source) metas
        total_text_length := total_length
        avg_document_length := (total_length : Rat) / (col.length : Rat)
        vector_dimensions := 384 }

/-- A constant embedder used for concrete evaluations. -/
def embed0 : String → List Rat := fun _ => [0]

/-- A constant distance function with value 2, used for concrete
evaluations (it also exhibits an unclamped, negative relevance). -/
def dist2 : List Rat → List Rat → Rat := fun _ _ => 2

/-- A concrete corpus entry. -/
def entry0 : KnowledgeEntry :=
  { title := "t", content := "c", source := "s", category := "cat" }

/-- A second concrete corpus entry. -/
def entry1 : KnowledgeEntry :=
  { title := "u", content := "d", source := "s2", category := "cat2" }

/-- The document built from `entry0` at position 0. -/
def doc0 : Document := mkDocument embed0 0 entry0

/-- A one-document collection. -/
def col0 : List Document := [doc0]

/-- The search hit produced from `doc0` at distance 2. -/
def res0 : SearchResult :=
  { content := doc0.text, metadata := doc0.metadata, relevance_score := -1, distance := 2 }

/-- A document whose stored vector has dimension 2, not 384. -/
def docDim2 : Document :=
  { id := "x", text := "y", embedding := [0, 1]
    metadata := { title := "t", source := "s", category := "c", text_length := 1, entry_id := 0 } }

/-- A string of 801 identical characters, one over the truncation
threshold. -/
def contentA : String := String.mk (List.replicate 801 'a')

theorem buildDocsFrom_length (embed : String → List Rat) (es : List KnowledgeEntry) :
    ∀ i, (buildDocsFrom embed i es).length = es.length := by
  induction es with
  | nil => intro i; rfl
  | cons e es ih => intro i; simp [buildDocsFrom, ih]

theorem buildDocsFrom_id_getElem (embed : String → List Rat) (es : List KnowledgeEntry) :
    ∀ j k, k < es.length →
      ((buildDocsFrom embed j es).map (fun d => d.id))[k]? =
        some ("malaria_doc_" ++ toString (j + k)) := by
  induction es with
  | nil => intro j k h; simp at h
  | cons e es ih =>
    intro j k h
    cases k with
    | zero => simp [buildDocsFrom, mkDocument]
    | succ k =>
      have hk : k < es.length := by simpa using Nat.lt_of_succ_lt_succ h
      have := ih (j + 1) k hk
      simp only [buildDocsFrom, List.map_cons, List.getElem?_cons_succ]
      rw [show j + (k + 1) = j + 1 + k from by omega]
      exact this

theorem length_insertByDist (x : Document × Rat) (l : List (Document × Rat)) :
    (insertByDist x l).length = l.length + 1 := by
  induction l with
  | nil => rfl
  | cons y ys ih =>
    unfold insertByDist
    split
    · simp
    · simp [ih]

theorem length_sortByDist (l : List (Document × Rat)) :
    (sortByDist l).length = l.length := by
  induction l with
  | nil => rfl
  | cons x xs ih => simp [sortByDist, length_insertByDist, ih]

theorem mem_of_mem_insertByDist {x y : Document × Rat} {l : List (Document × Rat)}
    (h : x ∈ insertByDist y l) : x = y ∨ x ∈ l := by
  induction l with
  | nil => simpa [insertByDist] using h
  | cons z zs ih =>
    unfold insertByDist at h
    split at h
    · rcases List.mem_cons.mp h with h1 | h2
      · exact Or.inl h1
      · exact Or.inr h2
    · rcases List.mem_cons.mp h with h1 | h2
      · exact Or.inr (h1 ▸ List.mem_cons_self z zs)
      · rcases ih h2 with h3 | h4
        · exact Or.inl h3
        · exact Or.inr (List.mem_cons_of_mem z h4)

theorem mem_of_mem_sortByDist {x : Document × Rat} {l : List (Document × Rat)}
    (h : x ∈ sortByDist l) : x ∈ l := by
  induction l with
  | nil => simp [sortByDist] at h
  | cons y ys ih =>
    rcases mem_of_mem_insertByDist (by simpa [sortByDist] using h) with h1 | h2
    · exact h1 ▸ List.mem_cons_self y ys
    · exact List.mem_cons_of_mem y (ih h2)

theorem sumCounts_bump (k : String) (l : List (String × Nat)) :
    sumCounts (bump k l) = sumCounts l + 1 := by
  induction l with
  | nil => rfl
  | cons p rest ih =>
    obtain ⟨k', n⟩ := p
    unfold bump
    split
    · simp [sumCounts]
      omega
    · simp [sumCounts] at ih ⊢
      omega

theorem sumCounts_foldl_bump (f : Metadata → String) (ms : List Metadata) :
    ∀ acc, sumCounts (ms.foldl (fun a m => bump (f m) a) acc) = sumCounts acc + ms.length := by
  induction ms with
  | nil => intro acc; simp
  | cons m ms ih =>
    intro acc
    rw [List.foldl_cons, ih, sumCounts_bump]
    simp
    omega

theorem sumCounts_tally (f : Metadata → String) (ms : List Metadata) :
    sumCounts (tally f ms) = ms.length := by
  have h := sumCounts_foldl_bump f ms []
  simpa [tally, sumCounts] using h

theorem search_col0_none_eval : search embed0 dist2 col0 "q" 1 none = [res0] := by
  norm_num [search, col0, dist2, embed0, sortByDist, insertByDist, res0, doc0]

theorem search_col0_empty_filter_eval : search embed0 dist2 col0 "q" 1 (some "") = [res0] := by
  norm_num [search, col0, dist2, embed0, sortByDist, insertByDist, res0, doc0]

theorem search_col0_cat_eval : search embed0 dist2 col0 "q" 1 (some "cat") = [res0] := by
  norm_num [search, col0, dist2, embed0, sortByDist, insertByDist, res0, doc0, mkDocument, entry0]

/-- C1: building twice from the same corpus state is idempotent: once the
first `load_knowledge` has populated the collection, a second call leaves
the collection unchanged, embeds nothing, and returns immediately
reporting the existing count. -/
theorem build_idempotent (embed : String → List Rat) (file : CorpusFile)
    (h : 0 < ((load_knowledge embed file []).collection).length) :
    load_knowledge embed file ((load_knowledge embed file []).collection) =
      { outcome := .alreadyLoaded ((load_knowledge embed file []).collection).length
        collection := (load_knowledge embed file []).collection
        embedCalls := 0 } := by
  cases file with
  | absent => simp [load_knowledge] at h
  | unparsable => simp [load_knowledge] at h
  | parsed entries =>
    cases entries with
    | nil => simp [load_knowledge] at h
    | cons e es => simp [load_knowledge, buildDocuments, buildDocsFrom]

/-- Witness for C1 at a one-entry corpus. -/
theorem build_idempotent_witness :
    0 < ((load_knowledge embed0 (CorpusFile.parsed [entry0]) []).collection).length ∧
    load_knowledge embed0 (CorpusFile.parsed [entry0])
        ((load_knowledge embed0 (CorpusFile.parsed [entry0]) []).collection) =
      { outcome := .alreadyLoaded
          ((load_knowledge embed0 (CorpusFile.parsed [entry0]) []).collection).length
        collection := (load_knowledge embed0 (CorpusFile.parsed [entry0]) []).collection
        embedCalls := 0 } :=
  ⟨by simp [load_knowledge, buildDocuments, buildDocsFrom],
   build_idempotent embed0 (CorpusFile.parsed [entry0])
     (by simp [load_knowledge, buildDocuments, buildDocsFrom])⟩

/-- C2: with no category filter, `search` returns exactly
`min k count` results for every `k`, and an empty index yields an empty
sequence rather than an error. -/
theorem search_length_min (embed : String → List Rat) (dist : List Rat → List Rat → Rat)
    (col : List Document) (q : String) (k : Nat) :
    (search embed dist col q k none).length = min k col.length ∧
    search embed dist ([] : List Document) q k none = [] := by
  constructor
  · by_cases h : col.length = 0
    · simp [search, h]
    · simp [search, h, length_sortByDist, List.length_take, List.length_map]
  · rfl

/-- C3: every result returned by `search` satisfies
`relevance_score = 1 - distance` exactly, with no clamping. -/
theorem search_score_identity (embed : String → List Rat) (dist : List Rat → List Rat → Rat)
    (col : List Document) (q : String) (k : Nat) (cf : Option String) (r : SearchResult)
    (h : r ∈ search embed dist col q k cf) :
    r.relevance_score = 1 - r.distance := by
  unfold search at h
  by_cases hc : col.length = 0
  · simp [hc] at h
  · rw [if_neg hc] at h
    simp only [List.mem_map] at h
    obtain ⟨p, hp, hr⟩ := h
    subst hr
    rfl

/-- Witness for C3: a concrete search whose single result has distance 2
and hence an unclamped negative relevance of -1. -/
theorem search_score_identity_witness :
    res0 ∈ search embed0 dist2 col0 "q" 1 none ∧
    res0.relevance_score = 1 - res0.distance := by
  have hm : res0 ∈ search embed0 dist2 col0 "q" 1 none := by
    rw [search_col0_none_eval]
    exact List.mem_singleton_self res0
  exact ⟨hm, search_score_identity embed0 dist2 col0 "q" 1 none res0 hm⟩

/-- C4 counterexample: the document built at position 0 gets the id
`"malaria_doc_0"`, not `"doc_0"` as the claim states. -/
theorem doc_id_prefix_counterexample :
    (buildDocuments embed0 [entry0]).map (fun d => d.id) = ["malaria_doc_0"] ∧
    ("malaria_doc_0" : String) ≠ "doc_0" := by
  constructor
  · rfl
  · decide

/-- C4 amended: `load_knowledge` assigns the document at 0-based
position `i` the id `"malaria_doc_{i}"`, deterministically. -/
theorem doc_id_assignment (embed : String → List Rat) (entries : List KnowledgeEntry)
    (i : Nat) (h : i < entries.length) :
    ((buildDocuments embed entries).map (fun d => d.id))[i]? =
      some ("malaria_doc_" ++ toString i) := by
  have hb := buildDocsFrom_id_getElem embed entries 0 i h
  simpa [buildDocuments] using hb

/-- Witness for the amended C4 at position 1 of a two-entry corpus. -/
theorem doc_id_assignment_witness :
    1 < ([entry0, entry1] : List KnowledgeEntry).length ∧
    ((buildDocuments embed0 [entry0, entry1]).map (fun d => d.id))[1]? =
      some ("malaria_doc_" ++ toString 1) :=
  ⟨by decide, doc_id_assignment embed0 [entry0, entry1] 1 (by decide)⟩

/-- C5 counterexample: with the corpus file absent, `load_knowledge`
logs the condition and returns normally with the collection unchanged;
no `NotFound` error reaches the caller. -/
theorem load_missing_file_counterexample :
    (load_knowledge embed0 CorpusFile.absent []).outcome = BuildOutcome.missingFile ∧
    raisesToCaller (load_knowledge embed0 CorpusFile.absent []).outcome = false ∧
    (load_knowledge embed0 CorpusFile.absent []).collection = [] :=
  ⟨rfl, rfl, rfl⟩

/-- C5 amended: an absent corpus file and an empty parsed corpus are
logged and the call returns normally with the collection unchanged
(nothing is raised to the caller); only an unparsable file raises an
error that propagates to the caller. -/
theorem load_error_contract (embed : String → List Rat) (col : List Document)
    (h : col = []) :
    (load_knowledge embed CorpusFile.absent col).outcome = BuildOutcome.missingFile ∧
    raisesToCaller (load_knowledge embed CorpusFile.absent col).outcome = false ∧
    (load_knowledge embed CorpusFile.absent col).collection = col ∧
    (load_knowledge embed (CorpusFile.parsed []) col).outcome = BuildOutcome.emptyKnowledge ∧
    raisesToCaller (load_knowledge embed (CorpusFile.parsed []) col).outcome = false ∧
    (load_knowledge embed (CorpusFile.parsed []) col).collection = col ∧
    (load_knowledge embed CorpusFile.unparsable col).outcome = BuildOutcome.parseError ∧
    raisesToCaller (load_knowledge embed CorpusFile.unparsable col).outcome = true := by
  subst h
  exact ⟨rfl, rfl, rfl, rfl, rfl, rfl, rfl, rfl⟩

/-- Witness for the amended C5 on the empty collection. -/
theorem load_error_contract_witness :
    (load_knowledge embed0 CorpusFile.absent ([] : List Document)).outcome =
        BuildOutcome.missingFile ∧
    raisesToCaller (load_knowledge embed0 CorpusFile.absent []).outcome = false ∧
    (load_knowledge embed0 CorpusFile.absent []).collection = ([] : List Document) ∧
    (load_knowledge embed0 (CorpusFile.parsed []) []).outcome = BuildOutcome.emptyKnowledge ∧
    raisesToCaller (load_knowledge embed0 (CorpusFile.parsed []) []).outcome = false ∧
    (load_knowledge embed0 (CorpusFile.parsed []) []).collection = ([] : List Document) ∧
    (load_knowledge embed0 CorpusFile.unparsable []).outcome = BuildOutcome.parseError ∧
    raisesToCaller (load_knowledge embed0 CorpusFile.unparsable []).outcome = true :=
  load_error_contract embed0 [] rfl

/-- C6 counterexample: a supplied empty-string category filter is falsy
in Python, so no `where` clause is added and the result's category
(`"cat"`) differs from the supplied filter value (`""`). -/
theorem filter_empty_string_counterexample :
    (search embed0 dist2 col0 "q" 1 (some "")).map (fun r => r.metadata.category) = ["cat"] ∧
    ("cat" : String) ≠ "" := by
  constructor
  · rw [search_col0_empty_filter_eval]
    rfl
  · decide

/-- C6 amended: for every supplied non-empty category filter, every
result's category equals the filter value, and when no stored document
has that category the result is the empty sequence; a supplied
empty-string filter is falsy in Python and applies no restriction. -/
theorem search_filter_correctness (embed : String → List Rat)
    (dist : List Rat → List Rat → Rat) (col : List Document) (q : String) (k : Nat)
    (s : String) (hs : s ≠ "") :
    (∀ r ∈ search embed dist col q k (some s), r.metadata.category = s) ∧
    (col.filter (fun d => d.metadata.category == s) = [] →
      search embed dist col q k (some s) = []) := by
  constructor
  · intro r hr
    unfold search at hr
    by_cases hc : col.length = 0
    · simp [hc] at hr
    · rw [if_neg hc] at hr
      simp only [if_neg hs, List.mem_map] at hr
      obtain ⟨p, hp, hr⟩ := hr
      subst hr
      have h1 := List.take_subset _ _ hp
      have h2 := mem_of_mem_sortByDist h1
      simp only [List.mem_map] at h2
      obtain ⟨d, hd, hpd⟩ := h2
      have hcat := (List.mem_filter.mp hd).2
      rw [← hpd]
      simpa using hcat
  · intro hf
    by_cases hc : col.length = 0
    · simp [search, hc]
    · simp [search, hc, if_neg hs, hf, sortByDist]

/-- Witness for the amended C6: the filter `"cat"` matches the stored
document's category, and the filter `"other"` matches nothing and
returns the empty sequence. -/
theorem search_filter_correctness_witness :
    res0.metadata.category = "cat" ∧
    search embed0 dist2 col0 "q" 1 (some "other") = [] := by
  constructor
  · exact (search_filter_correctness embed0 dist2 col0 "q" 1 "cat" (by decide)).1 res0
      (by rw [search_col0_cat_eval]; exact List.mem_singleton_self res0)
  · exact (search_filter_correctness embed0 dist2 col0 "q" 1 "other" (by decide)).2 (by decide)

/-- C7: whenever the underlying search comes back empty, `get_context`
returns exactly the fixed sentinel string. -/
theorem get_context_sentinel (embed : String → List Rat)
    (dist : List Rat → List Rat → Rat) (col : List Document) (q : String) (k : Nat)
    (h : search embed dist col q k none = []) :
    get_context embed dist col q k = "No relevant malaria knowledge found." := by
  simp [get_context, h, noKnowledgeSentinel]

/-- Witness for C7 on the empty index. -/
theorem get_context_sentinel_witness :
    search embed0 dist2 ([] : List Document) "q" 3 none = [] ∧
    get_context embed0 dist2 [] "q" 3 = "No relevant malaria knowledge found." :=
  ⟨rfl, get_context_sentinel embed0 dist2 [] "q" 3 rfl⟩

/-- C8: in the `get_context` rendering, content strictly longer than 800
characters is rendered as its first 800 characters followed by the fixed
truncation marker (so the rendered text has length `800 + marker`);
content of at most 800 characters is rendered unmodified. -/
theorem truncation_law (content : String) :
    (800 < content.length →
      renderContent content = String.mk (content.data.take 800) ++ truncationMarker ∧
      (renderContent content).length = 800 + truncationMarker.length) ∧
    (content.length ≤ 800 → renderContent content = content) := by
  constructor
  · intro h
    constructor
    · simp [renderContent, h]
    · have h' : 800 < content.data.length := h
      have hlen : (String.mk (content.data.take 800)).length = 800 := by
        show (content.data.take 800).length = 800
        rw [List.length_take]
        omega
      simp [renderContent, h, String.length_append, hlen]
  · intro h
    simp [renderContent, Nat.not_lt.mpr h]

/-- Witness for C8 at an 801-character content and a 2-character
content. -/
theorem truncation_law_witness :
    (800 < contentA.length ∧
      renderContent contentA = String.mk (contentA.data.take 800) ++ truncationMarker) ∧
    (("ab" : String).length ≤ 800 ∧ renderContent "ab" = "ab") := by
  have hA : 800 < contentA.length := by
    show 800 < (List.replicate 801 'a').length
    rw [List.length_replicate]
    omega
  have hb : ("ab" : String).length ≤ 800 := by decide
  exact ⟨⟨hA, ((truncation_law contentA).1 hA).1⟩, hb, (truncation_law "ab").2 hb⟩

/-- C9: on a populated index `get_stats` returns a record whose
`total_documents` equals the sum of the per-category counts, the sum of
the per-source counts, and the collection count; on an empty index it
returns the explicit error value instead. -/
theorem stats_consistency (col : List Document) :
    (0 < col.length →
      ∃ r, get_stats col = StatsOutcome.record r ∧
        r.total_documents = sumCounts r.categories ∧
        r.total_documents = sumCounts r.sources ∧
        r.total_documents = col.length) ∧
    (col.length = 0 → get_stats col = StatsOutcome.error "No knowledge base loaded") := by
  constructor
  · intro h
    have hc : ¬ col.length = 0 := by omega
    unfold get_stats
    rw [if_neg hc]
    refine ⟨_, rfl, ?_, ?_, rfl⟩
    · show col.length = sumCounts (tally (fun m => m.category) (col.map (fun d => d.metadata)))
      rw [sumCounts_tally, List.length_map]
    · show col.length = sumCounts (tally (fun m => m.source) (col.map (fun d => d.metadata)))
      rw [sumCounts_tally, List.length_map]
  · intro h
    unfold get_stats
    rw [if_pos h]

/-- Witness for C9 on a one-document collection and the empty one. -/
theorem stats_consistency_witness :
    (∃ r, get_stats col0 = StatsOutcome.record r ∧
      r.total_documents = sumCounts r.categories ∧
      r.total_documents = sumCounts r.sources ∧
      r.total_documents = col0.length) ∧
    get_stats ([] : List Document) = StatsOutcome.error "No knowledge base loaded" :=
  ⟨(stats_consistency col0).1 (by simp [col0]), (stats_consistency []).2 rfl⟩

/-- C10: on any populated index, the `vector_dimensions` field of the
`get_stats` record is the hardcoded constant 384, regardless of the
dimension of the vectors actually stored. -/
theorem stats_vector_dimensions (col : List Document) (h : 0 < col.length) :
    ∃ r, get_stats col = StatsOutcome.record r ∧ r.vector_dimensions = 384 := by
  have hc : ¬ col.length = 0 := by omega
  unfold get_stats
  rw [if_neg hc]
  exact ⟨_, rfl, rfl⟩

/-- Witness for C10 on a collection whose single stored vector has
dimension 2, not 384. -/
theorem stats_vector_dimensions_witness :
    docDim2.embedding.length ≠ 384 ∧
    ∃ r, get_stats [docDim2] = StatsOutcome.record r ∧ r.vector_dimensions = 384 :=
  ⟨by decide, stats_vector_dimensions [docDim2] (by decide)⟩
